import Mathlib

/-!
Shallow embedding of the CRM-Frontend client state logic:
the CRM context (customers/leads cache and its CRUD operations),
the authentication context (login/logout and web-storage persistence),
and the modal form validations.

JavaScript numbers are modelled as rationals, strings as Lean strings,
`Partial<T>` patches as structures of optional fields, and web storage
as functions from keys to optional values.
-/

/-- JS whitespace test, the `\s` character class (ASCII part plus the
common Unicode space characters). Used for `trim` and for `\S` (its
negation) in the email regex. -/
def isSpaceChar (c : Char) : Bool :=
  c = ' ' || c = '\t' || c = '\n' || c = '\r' || c = '\x0b' || c = '\x0c' ||
  c = '\u00A0' || c = '\u2028' || c = '\u2029' || c = '\uFEFF'

/-- JS `String.prototype.trim`: strip whitespace from both ends. -/
def jsTrim (s : String) : String :=
  ⟨((s.data.dropWhile isSpaceChar).reverse.dropWhile isSpaceChar).reverse⟩

/-- Matcher for the regex fragment `\.\S+` against a prefix of the input:
a literal dot followed by at least one non-space character. -/
def matchDotTail : List Char → Bool
  | '.' :: c :: _ => !isSpaceChar c
  | _ => false

/-- Matcher for the regex fragment `\S+\.\S+` against a prefix of the input,
backtracking over the length of the leading `\S+`. -/
def matchMid : List Char → Bool
  | [] => false
  | c :: rest => !isSpaceChar c && (matchDotTail rest || matchMid rest)

/-- Matcher for the regex fragment `@\S+\.\S+` against a prefix of the input. -/
def matchAfterAt : List Char → Bool
  | '@' :: rest => matchMid rest
  | _ => false

/-- Matcher for the full pattern `\S+@\S+\.\S+` against a prefix of the input,
backtracking over the length of the leading `\S+`. -/
def matchFull : List Char → Bool
  | [] => false
  | c :: rest => !isSpaceChar c && (matchAfterAt rest || matchFull rest)

/-- Search for a match of `\S+@\S+\.\S+` starting at any position. -/
def searchEmail : List Char → Bool
  | [] => false
  | c :: rest => matchFull (c :: rest) || searchEmail rest

/-- JS `/\S+@\S+\.\S+/.test(s)` from `CustomerModal.validateForm`. -/
def emailRegexTest (s : String) : Bool :=
  searchEmail s.data

/-- Lead status union type `'New' | 'Contacted' | 'Converted' | 'Lost'`
from `CRMContext.tsx`. -/
inductive LeadStatus where
  | New
  | Contacted
  | Converted
  | Lost
deriving DecidableEq

/-- `const leadStatuses = ['New', 'Contacted', 'Converted', 'Lost'] as const`
from `LeadModal.tsx`. -/
def leadStatuses : List LeadStatus :=
  [.New, .Contacted, .Converted, .Lost]

/-- User role union type `'Admin' | 'User'` from `AuthContext.tsx`. -/
inductive Role where
  | Admin
  | User
deriving DecidableEq

/-- `interface User` from `AuthContext.tsx`. -/
structure User where
  _id : String
  name : String
  email : String
  role : Role
  createdAt : String
deriving DecidableEq

/-- `interface Customer` from `CRMContext.tsx`; the optional fields
`phone?` and `company?` are `Option String`. -/
structure Customer where
  _id : String
  name : String
  email : String
  phone : Option String
  company : Option String
  ownerId : String
  createdAt : String
deriving DecidableEq

/-- `interface Lead` from `CRMContext.tsx`. The monetary `value` is a JS
number, modelled as a rational. -/
structure Lead where
  _id : String
  customerId : String
  title : String
  description : Option String
  status : LeadStatus
  value : ℚ
  createdAt : String
deriving DecidableEq

/-- `Omit<Customer, '_id' | 'ownerId' | 'createdAt'>`, the argument of
`addCustomer`. -/
structure CustomerInput where
  name : String
  email : String
  phone : Option String
  company : Option String
deriving DecidableEq

/-- `Omit<Lead, '_id' | 'createdAt'>`, the argument of `addLead`. -/
structure LeadInput where
  customerId : String
  title : String
  description : Option String
  status : LeadStatus
  value : ℚ
deriving DecidableEq

/-- `Partial<Customer>`, the patch argument of `updateCustomer`: every
field optional, `none` meaning the key is absent from the patch object. -/
structure CustomerPatch where
  _id : Option String
  name : Option String
  email : Option String
  phone : Option (Option String)
  company : Option (Option String)
  ownerId : Option String
  createdAt : Option String
deriving DecidableEq

/-- `Partial<Lead>`, the patch argument of `updateLead`. -/
structure LeadPatch where
  _id : Option String
  customerId : Option String
  title : Option String
  description : Option (Option String)
  status : Option LeadStatus
  value : Option ℚ
  createdAt : Option String
deriving DecidableEq

/-- The spread `{ ...customer, ...customerData }` in `updateCustomer`:
fields present in the patch override the customer's fields. -/
def applyPatchCustomer (c : Customer) (p : CustomerPatch) : Customer :=
  { _id := p._id.getD c._id
    name := p.name.getD c.name
    email := p.email.getD c.email
    phone := p.phone.getD c.phone
    company := p.company.getD c.company
    ownerId := p.ownerId.getD c.ownerId
    createdAt := p.createdAt.getD c.createdAt }

/-- The spread `{ ...lead, ...leadData }` in `updateLead`. -/
def applyPatchLead (l : Lead) (p : LeadPatch) : Lead :=
  { _id := p._id.getD l._id
    customerId := p.customerId.getD l.customerId
    title := p.title.getD l.title
    description := p.description.getD l.description
    status := p.status.getD l.status
    value := p.value.getD l.value
    createdAt := p.createdAt.getD l.createdAt }

/-- The state of `CRMProvider`: the `customers`, `leads` and `loading`
React state variables. -/
structure CRMState where
  customers : List Customer
  leads : List Lead
  loading : Bool
deriving DecidableEq

/-- Initial provider state: `useState<Customer[]>([])`,
`useState<Lead[]>([])`, `useState(false)`. -/
def initState : CRMState :=
  { customers := [], leads := [], loading := false }

/-- One completed call of a CRM context mutation. `addCustomer` carries
the current `user` from `useAuth()` (possibly null) and the timestamp
string `new Date().toISOString()`; `addLead` carries its timestamp. -/
inductive Op where
  | addCustomer (data : CustomerInput) (user : Option User) (now : String)
  | updateCustomer (id : String) (p : CustomerPatch)
  | deleteCustomer (id : String)
  | addLead (data : LeadInput) (now : String)
  | updateLead (id : String) (p : LeadPatch)
  | deleteLead (id : String)

/-- The effect of one completed CRM mutation on the provider state,
translated from `CRMContext.tsx`. Each mutation that runs ends with
`setLoading(false)` in its `finally` block; `addCustomer` returns
immediately when no user is logged in. -/
def applyOp (s : CRMState) (op : Op) : CRMState :=
  match op with
  | .addCustomer data user now =>
      match user with
      | none => s
      | some u =>
          { s with
            customers := s.customers ++
              [{ _id := toString (s.customers.length + 1)
                 name := data.name
                 email := data.email
                 phone := data.phone
                 company := data.company
                 ownerId := u._id
                 createdAt := now }]
            loading := false }
  | .updateCustomer id p =>
      { s with
        customers := s.customers.map fun c =>
          if c._id = id then applyPatchCustomer c p else c
        loading := false }
  | .deleteCustomer id =>
      { s with
        customers := s.customers.filter fun c => c._id != id
        leads := s.leads.filter fun l => l.customerId != id
        loading := false }
  | .addLead data now =>
      { s with
        leads := s.leads ++
          [{ _id := toString (s.leads.length + 1)
             customerId := data.customerId
             title := data.title
             description := data.description
             status := data.status
             value := data.value
             createdAt := now }]
        loading := false }
  | .updateLead id p =>
      { s with
        leads := s.leads.map fun l =>
          if l._id = id then applyPatchLead l p else l
        loading := false }
  | .deleteLead id =>
      { s with
        leads := s.leads.filter fun l => l._id != id
        loading := false }

/-- Apply a sequence of CRM mutations in order. -/
def applyOps (s : CRMState) (ops : List Op) : CRMState :=
  ops.foldl applyOp s

/-- A provider state reachable from the initial state by some sequence of
completed CRM mutations. -/
def Reachable (s : CRMState) : Prop :=
  ∃ ops : List Op, applyOps initState ops = s

/-- `getCustomer` from `CRMContext.tsx`:
`customers.find(customer => customer._id === id)`. -/
def getCustomer (s : CRMState) (id : String) : Option Customer :=
  s.customers.find? fun c => c._id == id

/-- Referential integrity: every lead's `customerId` is the `_id` of some
customer currently in the list. -/
def refIntegrity (s : CRMState) : Prop :=
  ∀ l ∈ s.leads, ∃ c ∈ s.customers, c._id = l.customerId

instance (s : CRMState) : Decidable (refIntegrity s) := by
  unfold refIntegrity
  infer_instance

/-- The record returned by `getDashboardStats`. The per-status records
`leadsByStatus` and `valueByStatus` are modelled as total functions with
default value 0, matching the `(acc[lead.status] || 0)` reads. -/
structure DashboardStats where
  totalCustomers : Nat
  totalLeads : Nat
  totalValue : ℚ
  leadsByStatus : LeadStatus → ℚ
  valueByStatus : LeadStatus → ℚ

/-- One step of `leads.reduce((acc, lead) => { acc[lead.status] =
(acc[lead.status] || 0) + 1; return acc; }, {})`. -/
def bumpCount (acc : LeadStatus → ℚ) (l : Lead) : LeadStatus → ℚ :=
  fun σ => if σ = l.status then acc σ + 1 else acc σ

/-- One step of `leads.reduce((acc, lead) => { acc[lead.status] =
(acc[lead.status] || 0) + lead.value; return acc; }, {})`. -/
def bumpValue (acc : LeadStatus → ℚ) (l : Lead) : LeadStatus → ℚ :=
  fun σ => if σ = l.status then acc σ + l.value else acc σ

/-- `getDashboardStats` from `CRMContext.tsx`. -/
def getDashboardStats (s : CRMState) : DashboardStats :=
  { totalCustomers := s.customers.length
    totalLeads := s.leads.length
    totalValue := s.leads.foldl (fun sum l => sum + l.value) 0
    leadsByStatus := s.leads.foldl bumpCount (fun _ => 0)
    valueByStatus := s.leads.foldl bumpValue (fun _ => 0) }

/-- A web storage object (`localStorage` or `sessionStorage`), as a map
from keys to optionally present string values. -/
def Storage : Type := String → Option String

/-- `storage.setItem(key, value)`. -/
def Storage.setItem (st : Storage) (key value : String) : Storage :=
  fun q => if q = key then some value else st q

/-- `storage.removeItem(key)`. -/
def Storage.removeItem (st : Storage) (key : String) : Storage :=
  fun q => if q = key then none else st q

/-- The state of `AuthProvider` together with the two browser storages it
touches: the `user`, `token` and `loading` React state variables,
`localStorage` and `sessionStorage`. -/
structure AuthState where
  user : Option User
  token : Option String
  loading : Bool
  localStore : Storage
  sessionStore : Storage

/-- `persist(remember, key, value)` from `AuthContext.tsx`:
`(remember ? localStorage : sessionStorage).setItem(key, value)`. -/
def persist (remember : Bool) (key value : String) (st : AuthState) : AuthState :=
  if remember then
    { st with localStore := st.localStore.setItem key value }
  else
    { st with sessionStore := st.sessionStore.setItem key value }

/-- The `user` object of a successful `/auth/login` response body:
`{ id, name, email, role }`. -/
structure ApiUser where
  id : String
  name : String
  email : String
  role : Role

/-- A successful `/auth/login` response body: `{ user, token }`. -/
structure LoginResponse where
  user : ApiUser
  token : String

/-- The `userData` object built in `login` from the response `data` and
the current time: `{ _id: data.user.id, name, email, role, createdAt }`. -/
def mkUserData (data : LoginResponse) (now : String) : User :=
  { _id := data.user.id
    name := data.user.name
    email := data.user.email
    role := data.user.role
    createdAt := now }

/-- `JSON.stringify` on a `User` object (flat object, keys in insertion
order; exact for field strings without characters needing escapes). -/
def serializeUser (u : User) : String :=
  "\x7b\"_id\":\"" ++ u._id ++ "\",\"name\":\"" ++ u.name ++
  "\",\"email\":\"" ++ u.email ++ "\",\"role\":\"" ++
  (match u.role with | .Admin => "Admin" | .User => "User") ++
  "\",\"createdAt\":\"" ++ u.createdAt ++ "\"\x7d"

/-- The successful path of `login(email, password, rememberMe)` from
`AuthContext.tsx`, given the API response `data` and the current time:
`setUser(userData); setToken(data.token); persist(rememberMe, 'crm_token',
data.token); persist(rememberMe, 'crm_user', JSON.stringify(userData))`,
with `setLoading(false)` in the `finally` block. -/
def login (data : LoginResponse) (rememberMe : Bool) (now : String)
    (st : AuthState) : AuthState :=
  let userData := mkUserData data now
  let st1 := { st with user := some userData, token := some data.token }
  let st2 := persist rememberMe "crm_token" data.token st1
  let st3 := persist rememberMe "crm_user" (serializeUser userData) st2
  { st3 with loading := false }

/-- `logout()` from `AuthContext.tsx`: null out user and token and remove
both keys from both storages. -/
def logout (st : AuthState) : AuthState :=
  { st with
    user := none
    token := none
    localStore := (st.localStore.removeItem "crm_token").removeItem "crm_user"
    sessionStore := (st.sessionStore.removeItem "crm_token").removeItem "crm_user" }

/-- The `formData` state of `CustomerModal`. -/
structure CustomerFormData where
  name : String
  email : String
  phone : String
  company : String
deriving DecidableEq

/-- `validateForm` from `CustomerModal.tsx`: an error is recorded for a
blank (after trim) name, for a blank (after trim) email, and for an email
failing `/\S+@\S+\.\S+/.test`; the form is valid when no error is
recorded. -/
def customerValidateForm (f : CustomerFormData) : Bool :=
  (!(jsTrim f.name == "")) && ((!(jsTrim f.email == "")) && emailRegexTest f.email)

/-- The CRM mutation that `CustomerModal.handleSubmit` invokes. -/
inductive CustomerSubmitAction where
  | update (id : String) (data : CustomerFormData)
  | add (data : CustomerFormData)
deriving DecidableEq

/-- `handleSubmit` from `CustomerModal.tsx`: return without calling any
CRM mutation when `validateForm()` is false, otherwise call
`updateCustomer(customerId, formData)` when editing (`customerId` set)
and `addCustomer(formData)` otherwise. -/
def customerHandleSubmit (customerId : Option String) (f : CustomerFormData) :
    Option CustomerSubmitAction :=
  if customerValidateForm f then
    match customerId with
    | some id => some (.update id f)
    | none => some (.add f)
  else
    none

/-- The `formData` state of `LeadModal`. The `status` field is kept as the
runtime string so that the `!formData.status` check is expressible. -/
structure LeadFormData where
  title : String
  description : String
  status : String
  value : ℚ
deriving DecidableEq

/-- `validateForm` from `LeadModal.tsx`: an error is recorded for a blank
(after trim) title, for a falsy (empty) status string, and for a negative
value; the form is valid when no error is recorded. -/
def leadValidateForm (f : LeadFormData) : Bool :=
  (!(jsTrim f.title == "")) && ((!(f.status == "")) && !(decide (f.value < 0)))

/-- Side conditions under which a CRM mutation respects customer ids:
`addLead` only with the `customerId` of a customer currently in the list,
`updateLead` only with a patch whose `customerId` (when present) is a
current customer's `_id`, and `updateCustomer` only with a patch that
does not set `_id`. The other operations are unrestricted. -/
def okOp (s : CRMState) : Op → Prop
  | .addCustomer _ _ _ => True
  | .updateCustomer _ p => p._id = none
  | .deleteCustomer _ => True
  | .addLead data _ => ∃ c ∈ s.customers, c._id = data.customerId
  | .updateLead _ p => ∀ v, p.customerId = some v → ∃ c ∈ s.customers, c._id = v
  | .deleteLead _ => True

/-- States reachable from the initial state by id-respecting mutations. -/
inductive ReachableOk : CRMState → Prop where
  | init : ReachableOk initState
  | step {s : CRMState} {op : Op} : ReachableOk s → okOp s op →
      ReachableOk (applyOp s op)

/-- An `addLead` input whose `customerId` matches no customer of the empty
initial state. -/
def orphanLeadInput : LeadInput :=
  { customerId := "1", title := "Orphan", description := none,
    status := .New, value := 0 }

/-- The state after calling `addLead` with `orphanLeadInput` on the
initial state. -/
def orphanState : CRMState :=
  applyOp initState (.addLead orphanLeadInput "2024-01-01T00:00:00Z")

/-- A logged-in user for concrete runs. -/
def dupUser : User :=
  { _id := "u1", name := "Owner", email := "owner@crm.io", role := .Admin,
    createdAt := "t0" }

/-- Two adds, a delete of the first customer, then another add: the last
`addCustomer` reuses `_id` `String(1 + 1) = "2"`. -/
def dupOps : List Op :=
  [ .addCustomer { name := "A", email := "a@x.io", phone := none, company := none }
      (some dupUser) "t1",
    .addCustomer { name := "B", email := "b@x.io", phone := none, company := none }
      (some dupUser) "t2",
    .deleteCustomer "1",
    .addCustomer { name := "C", email := "c@x.io", phone := none, company := none }
      (some dupUser) "t3" ]

/-- The state reached by `dupOps`, holding two customers with `_id` "2". -/
def dupState : CRMState := applyOps initState dupOps

/-- A concrete `addCustomer` input for witness states. -/
def demoCustomerInput : CustomerInput :=
  { name := "Acme", email := "contact@acme.com", phone := none, company := none }

/-- A concrete `addLead` input referring to the customer created first. -/
def demoLeadInput : LeadInput :=
  { customerId := "1", title := "Deal", description := none,
    status := .Contacted, value := 50 }

/-- A concrete state: one customer added by a logged-in user, then one
lead for that customer. -/
def demoState : CRMState :=
  applyOp (applyOp initState (.addCustomer demoCustomerInput (some dupUser) "t1"))
    (.addLead demoLeadInput "t2")

/-- The lead that `addLead demoLeadInput` creates in `demoState`. -/
def demoLead : Lead :=
  { _id := "1", customerId := "1", title := "Deal", description := none,
    status := .Contacted, value := 50, createdAt := "t2" }

/-- A concrete valid lead form with the boundary value 0. -/
def demoLeadForm : LeadFormData :=
  { title := "Deal", description := "", status := "New", value := 0 }

/-- A customer form that fails validation (blank name and email). -/
def blankCustomerForm : CustomerFormData :=
  { name := "", email := "", phone := "", company := "" }

theorem Storage.setItem_self (st : Storage) (key v : String) :
    st.setItem key v key = some v := by
  simp [Storage.setItem]

theorem Storage.setItem_other (st : Storage) (key v q : String) (h : q ≠ key) :
    st.setItem key v q = st q := by
  simp [Storage.setItem, h]

theorem Storage.removeItem_self (st : Storage) (key : String) :
    st.removeItem key key = none := by
  simp [Storage.removeItem]

theorem Storage.removeItem_other (st : Storage) (key q : String) (h : q ≠ key) :
    st.removeItem key q = st q := by
  simp [Storage.removeItem, h]

theorem foldl_add_value (ls : List Lead) (a : ℚ) :
    ls.foldl (fun sum l => sum + l.value) a = a + (ls.map Lead.value).sum := by
  induction ls generalizing a with
  | nil => simp
  | cons l ls ih => simp [ih, add_assoc]

theorem bumpCount_statusSum (acc : LeadStatus → ℚ) (l : Lead) :
    (leadStatuses.map (bumpCount acc l)).sum = (leadStatuses.map acc).sum + 1 := by
  cases h : l.status <;> simp [leadStatuses, bumpCount, h] <;> ring

theorem bumpValue_statusSum (acc : LeadStatus → ℚ) (l : Lead) :
    (leadStatuses.map (bumpValue acc l)).sum = (leadStatuses.map acc).sum + l.value := by
  cases h : l.status <;> simp [leadStatuses, bumpValue, h] <;> ring

theorem foldl_bumpCount_sum (ls : List Lead) (acc : LeadStatus → ℚ) :
    (leadStatuses.map (ls.foldl bumpCount acc)).sum =
      (leadStatuses.map acc).sum + ls.length := by
  induction ls generalizing acc with
  | nil => simp
  | cons l ls ih =>
      simp only [List.foldl_cons, ih, bumpCount_statusSum, List.length_cons]
      push_cast
      ring

theorem foldl_bumpValue_sum (ls : List Lead) (acc : LeadStatus → ℚ) :
    (leadStatuses.map (ls.foldl bumpValue acc)).sum =
      (leadStatuses.map acc).sum + (ls.map Lead.value).sum := by
  induction ls generalizing acc with
  | nil => simp
  | cons l ls ih =>
      simp only [List.foldl_cons, ih, bumpValue_statusSum, List.map_cons, List.sum_cons]
      ring

theorem okOp_preserves_refIntegrity (s : CRMState) (op : Op)
    (hri : refIntegrity s) (hok : okOp s op) : refIntegrity (applyOp s op) := by
  cases op with
  | addCustomer data user now =>
      cases user with
      | none => exact hri
      | some u =>
          intro l hl
          obtain ⟨c, hc, hid⟩ := hri l hl
          exact ⟨c, by simp [applyOp]; exact .inl hc, hid⟩
  | updateCustomer id p =>
      intro l hl
      obtain ⟨c, hc, hid⟩ := hri l hl
      refine ⟨if c._id = id then applyPatchCustomer c p else c, ?_, ?_⟩
      · simp [applyOp]
        exact ⟨c, hc, rfl⟩
      · have hp : p._id = none := hok
        by_cases h : c._id = id
        · rw [if_pos h]
          simpa [applyPatchCustomer, hp] using hid
        · rw [if_neg h]
          exact hid
  | deleteCustomer id =>
      intro l hl
      simp [applyOp, List.mem_filter] at hl
      obtain ⟨c, hc, hid⟩ := hri l hl.1
      refine ⟨c, ?_, hid⟩
      simp [applyOp, List.mem_filter]
      exact ⟨hc, by rw [hid]; exact hl.2⟩
  | addLead data now =>
      intro l hl
      simp [applyOp] at hl
      rcases hl with hl | hl
      · obtain ⟨c, hc, hid⟩ := hri l hl
        exact ⟨c, hc, hid⟩
      · obtain ⟨c, hc, hid⟩ := hok
        subst hl
        exact ⟨c, hc, hid⟩
  | updateLead id p =>
      intro l hl
      simp [applyOp] at hl
      obtain ⟨l0, hl0, heq⟩ := hl
      by_cases h : l0._id = id
      · rw [h, if_pos rfl] at heq
        subst heq
        cases hpc : p.customerId with
        | none =>
            obtain ⟨c, hc, hid⟩ := hri l0 hl0
            exact ⟨c, hc, by simp [applyPatchLead, hpc, hid]⟩
        | some v =>
            obtain ⟨c, hc, hid⟩ := hok v hpc
            exact ⟨c, hc, by simp [applyPatchLead, hpc, hid]⟩
      · rw [if_neg h] at heq
        subst heq
        exact hri l0 hl0
  | deleteLead id =>
      intro l hl
      simp [applyOp, List.mem_filter] at hl
      exact hri l hl.1

/-- C1: `deleteCustomer(id)` removes every customer whose `_id` equals
`id` and every lead whose `customerId` equals `id`, and every other
customer and lead stays present, in the original order (the resulting
lists are sublists of the originals). -/
theorem deleteCustomer_cascades (s : CRMState) (id : String) :
    (∀ c ∈ (applyOp s (.deleteCustomer id)).customers, c._id ≠ id) ∧
    (∀ l ∈ (applyOp s (.deleteCustomer id)).leads, l.customerId ≠ id) ∧
    (∀ c ∈ s.customers, c._id ≠ id → c ∈ (applyOp s (.deleteCustomer id)).customers) ∧
    (∀ l ∈ s.leads, l.customerId ≠ id → l ∈ (applyOp s (.deleteCustomer id)).leads) ∧
    (applyOp s (.deleteCustomer id)).customers.Sublist s.customers ∧
    (applyOp s (.deleteCustomer id)).leads.Sublist s.leads := by
  refine ⟨?_, ?_, ?_, ?_, ?_, ?_⟩
  · intro c hc
    simp [applyOp, List.mem_filter] at hc
    exact hc.2
  · intro l hl
    simp [applyOp, List.mem_filter] at hl
    exact hl.2
  · intro c hc hne
    simp [applyOp, List.mem_filter]
    exact ⟨hc, hne⟩
  · intro l hl hne
    simp [applyOp, List.mem_filter]
    exact ⟨hl, hne⟩
  · exact List.filter_sublist _
  · exact List.filter_sublist _

/-- C2 counterexample: calling `addLead` with a `customerId` that matches
no customer produces a reachable state violating referential integrity,
so the invariant does not hold in every reachable state. -/
theorem refIntegrity_not_invariant :
    Reachable orphanState ∧ ¬ refIntegrity orphanState :=
  ⟨⟨[.addLead orphanLeadInput "2024-01-01T00:00:00Z"], rfl⟩, by decide⟩

/-- C2 (amended): referential integrity holds in every state reachable
from the initial state by mutations that respect customer ids: arbitrary
`addCustomer`, `deleteCustomer` and `deleteLead` calls, `addLead` calls
whose `customerId` is a current customer's `_id`, `updateLead` calls
whose patch's `customerId` (when present) is a current customer's `_id`,
and `updateCustomer` calls whose patch does not set `_id`. -/
theorem reachableOk_refIntegrity (s : CRMState) (h : ReachableOk s) :
    refIntegrity s := by
  induction h with
  | init => intro l hl; cases hl
  | step hre hok ih => exact okOp_preserves_refIntegrity _ _ ih hok

/-- C2 witness: a concrete state built by an `addCustomer` followed by an
`addLead` for that customer satisfies referential integrity. -/
theorem reachableOk_refIntegrity_witness : refIntegrity demoState :=
  reachableOk_refIntegrity demoState
    (ReachableOk.step (ReachableOk.step ReachableOk.init trivial)
      ⟨{ _id := "1", name := "Acme", email := "contact@acme.com", phone := none,
         company := none, ownerId := "u1", createdAt := "t1" }, by decide, rfl⟩)

/-- C3: `CustomerModal.validateForm` returns true exactly when the name
is non-blank after trimming and the email is non-blank after trimming
and passes the `\S+@\S+\.\S+` test; and when it returns false,
`handleSubmit` calls neither `addCustomer` nor `updateCustomer`. -/
theorem customerValidateForm_spec (f : CustomerFormData) (customerId : Option String) :
    (customerValidateForm f = true ↔
      (jsTrim f.name ≠ "" ∧ jsTrim f.email ≠ "" ∧ emailRegexTest f.email = true)) ∧
    (customerValidateForm f = false → customerHandleSubmit customerId f = none) := by
  constructor
  · simp [customerValidateForm]
  · intro hfalse
    simp [customerHandleSubmit, hfalse]

/-- C3 witness: on the blank form, validation fails and submitting calls
no CRM mutation. -/
theorem customerValidateForm_spec_witness :
    customerHandleSubmit none blankCustomerForm = none :=
  (customerValidateForm_spec blankCustomerForm none).2 (by decide)

/-- C4: with a non-blank title and a set status, `LeadModal.validateForm`
accepts the form exactly when the value is non-negative, so every
negative value is rejected and the boundary value 0 passes. -/
theorem leadValidateForm_value (f : LeadFormData)
    (htitle : jsTrim f.title ≠ "") (hstatus : f.status ≠ "") :
    leadValidateForm f = true ↔ 0 ≤ f.value := by
  simp [leadValidateForm, htitle, hstatus, not_lt]

/-- C4 witness: a concrete form with title "Deal", status "New" and the
boundary value 0 passes validation. -/
theorem leadValidateForm_value_witness :
    (jsTrim demoLeadForm.title ≠ "" ∧ demoLeadForm.status ≠ "") ∧
    (leadValidateForm demoLeadForm = true ↔ 0 ≤ demoLeadForm.value) :=
  ⟨⟨by decide, by decide⟩,
   leadValidateForm_value demoLeadForm (by decide) (by decide)⟩

/-- C5: in every reachable state, every lead's status is one of the four
enumerated values `New`, `Contacted`, `Converted`, `Lost`; so every
operation sequence preserves this. -/
theorem reachable_lead_status_mem (s : CRMState) (_hs : Reachable s) :
    ∀ l ∈ s.leads, l.status ∈ leadStatuses := by
  intro l _
  cases l.status <;> simp [leadStatuses]

/-- C5 witness: the lead of the concrete reachable state `demoState` has
a status among the four enumerated values. -/
theorem reachable_lead_status_mem_witness : demoLead.status ∈ leadStatuses :=
  reachable_lead_status_mem demoState
    ⟨[.addCustomer demoCustomerInput (some dupUser) "t1", .addLead demoLeadInput "t2"], rfl⟩
    demoLead (by decide)

/-- C6: a successful `login` sets the in-memory user and token from the
API response and writes the token and serialized user under `crm_token`
and `crm_user` to `localStorage` when `rememberMe` is true and to
`sessionStorage` when it is false. -/
theorem login_persists (data : LoginResponse) (rememberMe : Bool) (now : String)
    (st : AuthState) :
    (login data rememberMe now st).user = some (mkUserData data now) ∧
    (login data rememberMe now st).token = some data.token ∧
    ((if rememberMe then (login data rememberMe now st).localStore
      else (login data rememberMe now st).sessionStore) "crm_token" = some data.token) ∧
    ((if rememberMe then (login data rememberMe now st).localStore
      else (login data rememberMe now st).sessionStore) "crm_user" =
        some (serializeUser (mkUserData data now))) := by
  cases rememberMe <;>
    simp [login, persist, Storage.setItem_self,
      Storage.setItem_other _ _ _ _ (by decide : ("crm_token" : String) ≠ "crm_user")]

/-- C7: `logout()` always nulls the in-memory user and token and removes
`crm_token` and `crm_user` from both `localStorage` and `sessionStorage`,
whatever the prior state. -/
theorem logout_clears (st : AuthState) :
    (logout st).user = none ∧ (logout st).token = none ∧
    (logout st).localStore "crm_token" = none ∧
    (logout st).localStore "crm_user" = none ∧
    (logout st).sessionStore "crm_token" = none ∧
    (logout st).sessionStore "crm_user" = none := by
  refine ⟨rfl, rfl, ?_, ?_, ?_, ?_⟩ <;>
    simp [logout, Storage.removeItem_self,
      Storage.removeItem_other _ _ _ (by decide : ("crm_token" : String) ≠ "crm_user")]

/-- C8: `getDashboardStats` is internally consistent: `totalCustomers`
and `totalLeads` are the list lengths, `totalValue` is the sum of all
lead values, the per-status counts sum to `totalLeads`, and the
per-status value sums sum to `totalValue`. -/
theorem getDashboardStats_consistent (s : CRMState) :
    (getDashboardStats s).totalCustomers = s.customers.length ∧
    (getDashboardStats s).totalLeads = s.leads.length ∧
    (getDashboardStats s).totalValue = (s.leads.map Lead.value).sum ∧
    (leadStatuses.map (getDashboardStats s).leadsByStatus).sum =
      ((getDashboardStats s).totalLeads : ℚ) ∧
    (leadStatuses.map (getDashboardStats s).valueByStatus).sum =
      (getDashboardStats s).totalValue := by
  refine ⟨rfl, rfl, ?_, ?_, ?_⟩
  · simp [getDashboardStats, foldl_add_value]
  · simp [getDashboardStats, foldl_bumpCount_sum]
  · simp [getDashboardStats, foldl_bumpValue_sum, foldl_add_value]

/-- C9: after two adds, a delete of the first customer and another add,
the reachable state `dupState` holds two distinct customers sharing the
same `_id`, and `getCustomer` on that id returns only the first of them. -/
theorem addCustomer_id_collision :
    Reachable dupState ∧
    ∃ c1 ∈ dupState.customers, ∃ c2 ∈ dupState.customers,
      c1 ≠ c2 ∧ c1._id = c2._id ∧
      getCustomer dupState c1._id = some c1 ∧
      getCustomer dupState c2._id ≠ some c2 :=
  ⟨⟨dupOps, rfl⟩, by decide⟩

/-- C10: when no user is logged in, `addCustomer` leaves the customers
list, the leads list and the loading flag unchanged. -/
theorem addCustomer_noUser_noop (data : CustomerInput) (now : String) (s : CRMState) :
    (applyOp s (.addCustomer data none now)).customers = s.customers ∧
    (applyOp s (.addCustomer data none now)).leads = s.leads ∧
    (applyOp s (.addCustomer data none now)).loading = s.loading :=
  ⟨rfl, rfl, rfl⟩
